import Mathlib

/-!
Verification of the `historical_market_data` module of the `rust-ibapi`
client library, shallowly embedded in Lean 4.

The module under study builds wire request packets for historical
market-data queries, sends them through a client, and decodes the
responses.  Pure functions of the source become Lean functions; the
stateful client becomes explicit state passing on a `ClientState` record.
Machine integers (`i32`, `i64`) are modelled as `Int`: none of the
operations verified here overflows or depends on a fixed width, and
`f64`-typed fields are never computed with (they are only carried), so
they are modelled as `Rat`.
-/

namespace HistoricalMarketData

/-- Errors surfaced by the module.  The Rust source uses `anyhow` string
errors; the distinct situations are separated into constructors so that
theorems can name them.  `anyhowError` carries the literal message passed
to `anyhow!`. -/
inductive IbError where
  | unsupportedFeature (msg : String)
  | malformedField (token : String)
  | unexpectedEndOfMessage
  | anyhowError (msg : String)
  | noResponse
deriving Repr, DecidableEq

/-- Modelled from the spec: the `Contract` type lives in `crate::domain`,
outside the sources given here.  Per the spec's data model it is an
instrument descriptor that the codec serializes as exactly 13 ordered
sub-fields: id, symbol, security type, expiry/contract-month, strike,
right, multiplier, exchange, primary exchange, currency, local symbol,
trading class, include-expired flag.  `strike` is an `f64` in the real
type; no claim computes with it, so it is carried as `Rat`. -/
structure Contract where
  con_id : Int
  symbol : String
  sec_type : String
  last_trade_date_or_contract_month : String
  strike : Rat
  right : String
  multiplier : String
  exchange : String
  primary_exch : String
  currency : String
  local_symbol : String
  trading_class : String
  include_expired : Bool
deriving Repr, DecidableEq

/-- Modelled from the spec: the Field Codec encodes booleans as the
tokens "0" and "1". -/
def boolToken (b : Bool) : String :=
  if b then "1" else "0"

/-- Modelled from the spec: the Field Codec encodes integers as decimal
text. -/
def intToken (n : Int) : String :=
  toString n

/-- Modelled from the spec: the Field Codec encodes floats as decimal
text; only its injectivity-free carrying matters to the claims. -/
def ratToken (q : Rat) : String :=
  toString q

/-- Modelled from the spec: `RequestPacket` (from `crate::client`, outside
the given sources) is an ordered, append-only sequence of encoded field
tokens. -/
structure RequestPacket where
  fields : List String
deriving Repr, DecidableEq

/-- The `Default` instance of `RequestPacket`: an empty token sequence. -/
def RequestPacket.defaultPacket : RequestPacket :=
  ⟨[]⟩

/-- Modelled from the spec: `add_field` for an integer appends its decimal
token. -/
def RequestPacket.addIntField (p : RequestPacket) (n : Int) : RequestPacket :=
  ⟨p.fields ++ [intToken n]⟩

/-- Modelled from the spec: `add_field` for a boolean appends "0"/"1". -/
def RequestPacket.addBoolField (p : RequestPacket) (b : Bool) : RequestPacket :=
  ⟨p.fields ++ [boolToken b]⟩

/-- Modelled from the spec: `add_field` for a string appends it as a raw
token. -/
def RequestPacket.addStrField (p : RequestPacket) (s : String) : RequestPacket :=
  ⟨p.fields ++ [s]⟩

/-- The 13 canonical sub-fields of a `Contract`, in the order fixed by the
spec's data model and by the `AddParameter(this BinaryWriter, Contract)`
reference transcribed in the source's comments: id, symbol, security
type, expiry/contract-month, strike, right, multiplier, exchange, primary
exchange, currency, local symbol, trading class, include-expired flag. -/
def contractFields (c : Contract) : List String :=
  [intToken c.con_id,
   c.symbol,
   c.sec_type,
   c.last_trade_date_or_contract_month,
   ratToken c.strike,
   c.right,
   c.multiplier,
   c.exchange,
   c.primary_exch,
   c.currency,
   c.local_symbol,
   c.trading_class,
   boolToken c.include_expired]

/-- Modelled from the spec: `add_field` for a `Contract` expands it
in-line to its 13 canonical sub-fields. -/
def RequestPacket.addContractField (p : RequestPacket) (c : Contract) : RequestPacket :=
  ⟨p.fields ++ contractFields c⟩

/-- Parse one decimal digit. -/
def digitVal (c : Char) : Option Nat :=
  if c.isDigit then some (c.toNat - 48) else none

/-- Fold a list of decimal digits into a natural number; `none` on any
non-digit. -/
def parseNatAux : List Char → Nat → Option Nat
  | [], acc => some acc
  | c :: cs, acc =>
    match digitVal c with
    | some d => parseNatAux cs (acc * 10 + d)
    | none => none

/-- Modelled from the spec: parsing an integer field token (decimal text,
optional leading minus sign). -/
def parseIntToken (s : String) : Option Int :=
  match s.data with
  | [] => none
  | '-' :: rest =>
    if rest = [] then none
    else (parseNatAux rest 0).map (fun n => -(n : Int))
  | l => (parseNatAux l 0).map (fun n => (n : Int))

/-- Modelled from the spec: timestamps are decoded from the gateway's
compact timestamp token.  Only the identity of the decoded value matters
to the claims, so an `OffsetDateTime` is carried as its epoch-seconds
integer. -/
structure OffsetDateTime where
  unix_seconds : Int
deriving Repr, DecidableEq

/-- Modelled from the spec: `ResponsePacket` (from `crate::client`,
outside the given sources) is an ordered sequence of raw field tokens
with a forward-only read cursor. -/
structure ResponsePacket where
  fields : List String
  cursor : Nat
deriving Repr, DecidableEq

/-- Build a fresh `ResponsePacket` with its cursor at the start. -/
def ResponsePacket.fromFields (fs : List String) : ResponsePacket :=
  ⟨fs, 0⟩

/-- Number of tokens the cursor has not yet consumed. -/
def ResponsePacket.remaining (p : ResponsePacket) : Nat :=
  p.fields.length - p.cursor

/-- Modelled from the spec: `next_int` reads the token under the cursor
as decimal text and advances the cursor; fewer tokens than required is an
`UnexpectedEndOfMessage`, an unparsable token a `MalformedField`. -/
def ResponsePacket.next_int (p : ResponsePacket) :
    Except IbError (Int × ResponsePacket) :=
  match p.fields[p.cursor]? with
  | none => .error .unexpectedEndOfMessage
  | some tok =>
    match parseIntToken tok with
    | none => .error (.malformedField tok)
    | some n => .ok (n, ⟨p.fields, p.cursor + 1⟩)

/-- Modelled from the spec: `next_date_time` reads the token under the
cursor as a compact timestamp (epoch seconds as decimal text) and
advances the cursor. -/
def ResponsePacket.next_date_time (p : ResponsePacket) :
    Except IbError (OffsetDateTime × ResponsePacket) :=
  match p.fields[p.cursor]? with
  | none => .error .unexpectedEndOfMessage
  | some tok =>
    match parseIntToken tok with
    | none => .error (.malformedField tok)
    | some n => .ok (⟨n⟩, ⟨p.fields, p.cursor + 1⟩)

/-- Modelled from the spec: the minimum negotiated server version for
head-timestamp requests (`server_versions::REQ_HEAD_TIMESTAMP`, outside
the given sources).  The claims depend only on the comparison against it,
never on the concrete value. -/
def REQ_HEAD_TIMESTAMP : Int := 113

/-- Modelled from the spec: the observable state of a `Client` as the
collaborator contract describes it — a negotiated server version, a
monotonically increasing request-id counter, the queue of response
packets the transport will deliver, and the request packets it has
observed being sent (the test stub `ClientStub` records exactly these). -/
structure ClientState where
  server_version : Int
  next_id : Int
  response_packets : List ResponsePacket
  request_packets : List RequestPacket
deriving Repr, DecidableEq

/-- Modelled from the spec: the Capability Gate.  `check_server_version`
fails with `UnsupportedFeature` (carrying the supplied message) when the
negotiated version is below the feature's minimum, and touches nothing. -/
def ClientState.check_server_version (st : ClientState) (minVersion : Int)
    (msg : String) : Except IbError Unit :=
  if st.server_version < minVersion then .error (.unsupportedFeature msg)
  else .ok ()

/-- Modelled from the spec: `next_request_id` returns the current counter
value and increments it. -/
def ClientState.next_request_id (st : ClientState) : Int × ClientState :=
  (st.next_id, { st with next_id := st.next_id + 1 })

/-- Modelled from the spec: `send_message` records the sent packet and
returns the promise of the next queued response (the stub transport's
behaviour); with no queued response the promise cannot resolve. -/
def ClientState.send_message (st : ClientState) (_request_id : Int)
    (req : RequestPacket) : Except IbError (ResponsePacket × ClientState) :=
  match st.response_packets with
  | [] => .error .noResponse
  | r :: rs =>
    .ok (r, { st with
              response_packets := rs,
              request_packets := st.request_packets ++ [req] })

/-- `encode_head_timestamp` from the source: starting from the default
packet, adds the op-code 12, the request id, the contract, the use-RTH
flag, the what-to-show string and the literal "format_date", then returns
`Ok`. -/
def encode_head_timestamp (request_id : Int) (contract : Contract)
    (what_to_show : String) (use_rth : Bool) : Except IbError RequestPacket :=
  let packet := RequestPacket.defaultPacket
  let packet := packet.addIntField 12
  let packet := packet.addIntField request_id
  let packet := packet.addContractField contract
  let packet := packet.addBoolField use_rth
  let packet := packet.addStrField what_to_show
  let packet := packet.addStrField "format_date"
  .ok packet

/-- `decode_head_timestamp` from the source: reads the request id with
`next_int` (discarding it), then reads and returns the timestamp with
`next_date_time`.  The final packet (with its advanced cursor) is
returned alongside so that consumption can be observed. -/
def decode_head_timestamp (packet : ResponsePacket) :
    Except IbError (OffsetDateTime × ResponsePacket) :=
  match packet.next_int with
  | .error e => .error e
  | .ok (_request_id, p1) =>
    match p1.next_date_time with
    | .error e => .error e
    | .ok (head_timestamp, p2) => .ok (head_timestamp, p2)

/-- `head_timestamp` from the source: checks the server version, draws a
request id, encodes the request, sends it, awaits the single response and
decodes it.  Returns the result together with the client state after the
call. -/
def head_timestamp (st : ClientState) (contract : Contract)
    (what_to_show : String) (use_rth : Bool) :
    Except IbError OffsetDateTime × ClientState :=
  match st.check_server_version REQ_HEAD_TIMESTAMP
      "It does not support head time stamp requests." with
  | .error e => (.error e, st)
  | .ok _ =>
    let (request_id, st1) := st.next_request_id
    match encode_head_timestamp request_id contract what_to_show use_rth with
    | .error e => (.error e, st1)
    | .ok request =>
      match st1.send_message request_id request with
      | .error e => (.error e, st1)
      | .ok (response, st2) =>
        match decode_head_timestamp response with
        | .error e => (.error e, st2)
        | .ok (ts, _) => (.ok ts, st2)

/-- `HistoricalTick` from the source (time, price, size). -/
structure HistoricalTick where
  time : Int
  price : Rat
  size : Int
deriving Repr, DecidableEq

/-- `HistoricalTickIterator` from the source: a field-less struct. -/
structure HistoricalTickIterator where
deriving Repr, DecidableEq

/-- `HistoricalTickIterator::new` from the source. -/
def HistoricalTickIterator.new : HistoricalTickIterator :=
  ⟨⟩

/-- `HistoricalTickIterator::next` from the source: returns `None`
unconditionally (the iterator state is unchanged since the struct has no
fields to mutate). -/
def HistoricalTickIterator.next (it : HistoricalTickIterator) :
    Option HistoricalTick × HistoricalTickIterator :=
  (none, it)

/-- `HistoricalTickBidAskIterator` from the source: a field-less struct
with no iterator implementation. -/
structure HistoricalTickBidAskIterator where
deriving Repr, DecidableEq

/-- `HistoricalTickLastIterator` from the source: a field-less struct
with no iterator implementation. -/
structure HistoricalTickLastIterator where
deriving Repr, DecidableEq

/-- `HistogramDataIterator` from the source: a field-less struct with no
iterator implementation. -/
structure HistogramDataIterator where
deriving Repr, DecidableEq

/-- `Bar` from the source: one OHLCV aggregate. -/
structure Bar where
  time : OffsetDateTime
  open_ : Rat
  high : Rat
  low : Rat
  close : Rat
  volume : Rat
  wap : Rat
  count : Int
deriving Repr, DecidableEq

/-- `BarIterator` from the source: a field-less struct with no iterator
implementation. -/
structure BarIterator where
deriving Repr, DecidableEq

/-- `histogram_data` from the source: prints its arguments (logging is
outside the modelled state) and returns `Err(anyhow!("not implemented!"))`.
The client is taken by shared reference in the source, so the state is
returned unchanged. -/
def histogram_data (st : ClientState) (_contract : Contract)
    (_use_rth : Bool) (_period : String) :
    Except IbError HistogramDataIterator × ClientState :=
  (.error (.anyhowError "not implemented!"), st)

/-- `historical_data` from the source: prints its arguments and returns
`Err(anyhow!("not implemented!"))`; the shared-reference client state is
unchanged. -/
def historical_data (st : ClientState) (_contract : Contract)
    (_end : OffsetDateTime) (_duration : String) (_bar_size : String)
    (_what_to_show : String) (_use_rth : Bool) (_keep_up_to_date : Bool) :
    Except IbError BarIterator × ClientState :=
  (.error (.anyhowError "not implemented!"), st)

/-- `historical_schedule` from the source: prints its arguments and
returns `Err(anyhow!("not implemented!"))` (its declared success type is
`HistogramDataIterator`, as in the source); the client state is
unchanged. -/
def historical_schedule (st : ClientState) (_contract : Contract)
    (_use_rth : Bool) (_period : String) :
    Except IbError HistogramDataIterator × ClientState :=
  (.error (.anyhowError "not implemented!"), st)

/-- `historical_ticks` from the source: prints its arguments and returns
`Err(anyhow!("not implemented!"))`; the client state is unchanged. -/
def historical_ticks (st : ClientState) (_contract : Contract)
    (_start_date : Option OffsetDateTime) (_end_date : Option OffsetDateTime)
    (_number_of_ticks : Int) (_use_rth : Int) (_ignore_size : Bool) :
    Except IbError HistoricalTickIterator × ClientState :=
  (.error (.anyhowError "not implemented!"), st)

/-- `historical_ticks_bid_ask` from the source: prints its arguments and
returns `Err(anyhow!("not implemented!"))`; the client state is
unchanged. -/
def historical_ticks_bid_ask (st : ClientState) (_contract : Contract)
    (_start_date : Option OffsetDateTime) (_end_date : Option OffsetDateTime)
    (_number_of_ticks : Int) (_use_rth : Int) (_ignore_size : Bool) :
    Except IbError HistoricalTickBidAskIterator × ClientState :=
  (.error (.anyhowError "not implemented!"), st)

/-- `historical_ticks_last` from the source: prints its arguments and
returns `Err(anyhow!("not implemented!"))`; the client state is
unchanged. -/
def historical_ticks_last (st : ClientState) (_contract : Contract)
    (_start_date : Option OffsetDateTime) (_end_date : Option OffsetDateTime)
    (_number_of_ticks : Int) (_use_rth : Int) (_ignore_size : Bool) :
    Except IbError HistoricalTickLastIterator × ClientState :=
  (.error (.anyhowError "not implemented!"), st)

/-- A sample contract (the `contracts::stock("MSFT")` shape of the
source's test) used for concrete witnesses and counterexamples. -/
def sampleContract : Contract :=
  { con_id := 0
    symbol := "MSFT"
    sec_type := "STK"
    last_trade_date_or_contract_month := ""
    strike := 0
    right := ""
    multiplier := ""
    exchange := "SMART"
    primary_exch := ""
    currency := "USD"
    local_symbol := ""
    trading_class := ""
    include_expired := false }

/-!  ## Theorems about the claims  -/

/-- C1: for every request id, Contract, what-to-show string and use-RTH
flag, `encode_head_timestamp` builds a RequestPacket whose fields are, in
order: the op-code 12, the RequestId, the 13 Contract sub-fields in their
canonical order (id, symbol, security type, expiry/contract-month,
strike, right, multiplier, exchange, primary exchange, currency, local
symbol, trading class, include-expired flag), the use-RTH flag, the
what-to-show code and the fixed date-format directive "format_date" —
and nothing else (exactly these 18 tokens). -/
theorem encode_head_timestamp_field_order (request_id : Int) (c : Contract)
    (what_to_show : String) (use_rth : Bool) :
    encode_head_timestamp request_id c what_to_show use_rth =
      .ok ⟨[intToken 12,
            intToken request_id,
            intToken c.con_id,
            c.symbol,
            c.sec_type,
            c.last_trade_date_or_contract_month,
            ratToken c.strike,
            c.right,
            c.multiplier,
            c.exchange,
            c.primary_exch,
            c.currency,
            c.local_symbol,
            c.trading_class,
            boolToken c.include_expired,
            boolToken use_rth,
            what_to_show,
            "format_date"]⟩ := by
  rfl

/-- C5 counterexample: the head-timestamp packet has no version field
between the op-code and the RequestId.  Its token at position 1 varies
with the request id ("9000" for id 9000, "9001" for id 9001), so that
position holds the RequestId itself, not a fixed version; and the packet
has exactly 18 fields (op-code + RequestId + 13 contract fields + 3
parameters), leaving no position for a version field. -/
theorem encode_head_timestamp_no_version_field :
    (encode_head_timestamp 9000 sampleContract "trades" true).map
        (fun p => (p.fields[1]?, p.fields.length)) = .ok (some "9000", 18) ∧
    (encode_head_timestamp 9001 sampleContract "trades" true).map
        (fun p => (p.fields[1]?, p.fields.length)) = .ok (some "9001", 18) := by
  constructor <;> rfl

/-- C5 amended: the head-timestamp RequestPacket carries the op-code and
then the RequestId directly, with no version field in between: for every
input its first two tokens are exactly the op-code 12 and the request
id. -/
theorem encode_head_timestamp_opcode_then_request_id (request_id : Int)
    (c : Contract) (what_to_show : String) (use_rth : Bool) :
    (encode_head_timestamp request_id c what_to_show use_rth).map
        (fun p => p.fields.take 2) =
      .ok [intToken 12, intToken request_id] := by
  rfl

/-- C10: building the head-timestamp request never fails —
`encode_head_timestamp` returns `Ok` for every request id, Contract,
what-to-show string and use-RTH flag. -/
theorem encode_head_timestamp_never_fails (request_id : Int) (c : Contract)
    (what_to_show : String) (use_rth : Bool) :
    (encode_head_timestamp request_id c what_to_show use_rth).isOk = true := by
  rfl

/-- C2: for every ResponsePacket whose first field parses as an integer
and whose second field parses as a timestamp, `decode_head_timestamp`
returns the timestamp parsed from the second field; the RequestId parsed
from the first field is consumed (the cursor ends past it, at position 2)
and does not appear in the returned value, which depends only on `t`. -/
theorem decode_head_timestamp_returns_second_field (fs : List String)
    (s0 s1 : String) (request_id t : Int)
    (h0 : fs[0]? = some s0) (h1 : fs[1]? = some s1)
    (hrid : parseIntToken s0 = some request_id)
    (ht : parseIntToken s1 = some t) :
    decode_head_timestamp (ResponsePacket.fromFields fs) =
      .ok (⟨t⟩, ⟨fs, 2⟩) := by
  simp [decode_head_timestamp, ResponsePacket.fromFields,
    ResponsePacket.next_int, ResponsePacket.next_date_time, h0, h1, hrid, ht]

/-- Witness for C2 at the concrete response ["7", "1678890000"]. -/
theorem decode_head_timestamp_returns_second_field_witness :
    decode_head_timestamp (ResponsePacket.fromFields ["7", "1678890000"]) =
      .ok (⟨1678890000⟩, ⟨["7", "1678890000"], 2⟩) :=
  decode_head_timestamp_returns_second_field ["7", "1678890000"] "7"
    "1678890000" 7 1678890000 (by decide) (by decide) (by decide) (by decide)

/-- C4 counterexample: on a response with a third, leftover field
("extra") beyond the two the head-timestamp response defines, decoding
returns `Ok` with the leftover token unconsumed (one remaining field at
cursor 2) instead of surfacing an error. -/
theorem decode_head_timestamp_ignores_leftover :
    decode_head_timestamp (ResponsePacket.fromFields ["0", "100", "extra"]) =
      .ok (⟨100⟩, ⟨["0", "100", "extra"], 2⟩) ∧
    ResponsePacket.remaining ⟨["0", "100", "extra"], 2⟩ = 1 := by
  constructor <;> rfl

/-- C4 amended: `decode_head_timestamp` consumes exactly the two defined
fields (RequestId and timestamp) and returns `Ok` with the timestamp even
when further tokens remain; the leftover tokens are ignored, not
surfaced: for every packet with more than two fields whose first two
parse, decoding succeeds and leaves a positive number of unconsumed
tokens. -/
theorem decode_head_timestamp_leftover_not_error (fs : List String)
    (s0 s1 : String) (request_id t : Int)
    (h0 : fs[0]? = some s0) (h1 : fs[1]? = some s1)
    (hrid : parseIntToken s0 = some request_id)
    (ht : parseIntToken s1 = some t)
    (hlen : 2 < fs.length) :
    (decode_head_timestamp (ResponsePacket.fromFields fs)).map
        (fun r => (r.1, r.2.remaining)) = .ok (⟨t⟩, fs.length - 2) ∧
    0 < fs.length - 2 := by
  refine ⟨?_, by omega⟩
  simp [decode_head_timestamp, ResponsePacket.fromFields,
    ResponsePacket.next_int, ResponsePacket.next_date_time,
    ResponsePacket.remaining, Except.map, h0, h1, hrid, ht]

/-- Witness for C4's amended claim at the concrete response
["0", "100", "extra"]. -/
theorem decode_head_timestamp_leftover_not_error_witness :
    (decode_head_timestamp (ResponsePacket.fromFields ["0", "100", "extra"])).map
        (fun r => (r.1, r.2.remaining)) = .ok (⟨100⟩, 1) ∧ (0 : Nat) < 1 := by
  have h := decode_head_timestamp_leftover_not_error ["0", "100", "extra"]
    "0" "100" 0 100 (by decide) (by decide) (by decide) (by decide) (by decide)
  exact h

/-- C3: for every client whose negotiated server version is below the
head-timestamp minimum, `head_timestamp` returns the `UnsupportedFeature`
error and leaves the client state untouched: the request-id counter is
not advanced (no request id allocated) and the list of sent request
packets is unchanged (nothing is sent to the transport). -/
theorem head_timestamp_unsupported_version (st : ClientState) (c : Contract)
    (what_to_show : String) (use_rth : Bool)
    (h : st.server_version < REQ_HEAD_TIMESTAMP) :
    head_timestamp st c what_to_show use_rth =
      (.error (.unsupportedFeature
        "It does not support head time stamp requests."), st) := by
  simp [head_timestamp, ClientState.check_server_version, h]

/-- Witness for C3 at a client with negotiated version 100 (below the
minimum), carrying one queued response and an empty sent-packet list. -/
theorem head_timestamp_unsupported_version_witness :
    head_timestamp ⟨100, 9000, [ResponsePacket.fromFields ["0", "1"]], []⟩
        sampleContract "trades" true =
      (.error (.unsupportedFeature
        "It does not support head time stamp requests."),
       ⟨100, 9000, [ResponsePacket.fromFields ["0", "1"]], []⟩) :=
  head_timestamp_unsupported_version
    ⟨100, 9000, [ResponsePacket.fromFields ["0", "1"]], []⟩
    sampleContract "trades" true (by decide)

/-- C6: for a supported client (negotiated version at least the minimum)
whose transport has queued exactly the two-field response ["0", s] with s
a valid timestamp token, and which has sent nothing yet, `head_timestamp`
returns `Ok` with the timestamp decoded from the second field, exactly
one RequestPacket ends up sent, and decoding that response consumes all
its fields (zero undecoded fields remain). -/
theorem head_timestamp_end_to_end (st : ClientState) (c : Contract)
    (what_to_show s : String) (use_rth : Bool) (t : Int)
    (hv : REQ_HEAD_TIMESTAMP ≤ st.server_version)
    (hq : st.response_packets = [ResponsePacket.fromFields ["0", s]])
    (hsent : st.request_packets = [])
    (ht : parseIntToken s = some t) :
    (head_timestamp st c what_to_show use_rth).1 = .ok ⟨t⟩ ∧
    (head_timestamp st c what_to_show use_rth).2.request_packets.length = 1 ∧
    (decode_head_timestamp (ResponsePacket.fromFields ["0", s])).map
        (fun r => r.2.remaining) = .ok 0 := by
  have hns : ¬ st.server_version < REQ_HEAD_TIMESTAMP := not_lt.mpr hv
  have h0 : parseIntToken "0" = some 0 := by decide
  simp [head_timestamp, ClientState.check_server_version, hns, h0,
    ClientState.next_request_id, encode_head_timestamp,
    ClientState.send_message, hq, hsent, decode_head_timestamp,
    ResponsePacket.fromFields, ResponsePacket.next_int,
    ResponsePacket.next_date_time, ResponsePacket.remaining,
    Except.map, ht]

/-- Witness for C6 at a client with version 200, the queued response
["0", "1678890000"], the MSFT sample contract, what-to-show "trades" and
use-RTH true. -/
theorem head_timestamp_end_to_end_witness :
    (head_timestamp ⟨200, 9000, [ResponsePacket.fromFields ["0", "1678890000"]], []⟩
        sampleContract "trades" true).1 = .ok ⟨1678890000⟩ ∧
    (head_timestamp ⟨200, 9000, [ResponsePacket.fromFields ["0", "1678890000"]], []⟩
        sampleContract "trades" true).2.request_packets.length = 1 ∧
    (decode_head_timestamp (ResponsePacket.fromFields ["0", "1678890000"])).map
        (fun r => r.2.remaining) = .ok 0 :=
  head_timestamp_end_to_end
    ⟨200, 9000, [ResponsePacket.fromFields ["0", "1678890000"]], []⟩
    sampleContract "trades" "1678890000" true 1678890000
    (by decide) (by decide) (by decide) (by decide)

/-- C7: evaluation of the code at the failing input.  Calling
`historical_data` (here: a supported client with an empty transport, the
MSFT sample contract, end time epoch 0, duration "1 D", bar size
"1 hour", what-to-show "TRADES", use-RTH true, keep-up-to-date false)
returns the error "not implemented!" and leaves the client untouched: no
bar Result Stream is ever obtained, so no stream fed with bar messages
can yield Bar elements — `BarIterator` has no iteration operation at
all. -/
theorem historical_data_not_implemented_concrete :
    historical_data ⟨200, 9000, [], []⟩ sampleContract ⟨0⟩ "1 D" "1 hour"
        "TRADES" true false =
      (.error (.anyhowError "not implemented!"), ⟨200, 9000, [], []⟩) := by
  rfl

/-- C8: every query operation other than `head_timestamp` —
`histogram_data`, `historical_data`, `historical_schedule`,
`historical_ticks`, `historical_ticks_bid_ask`, `historical_ticks_last`
— returns the error "not implemented!" for every input and returns the
client state unchanged: no request id is allocated, no RequestPacket is
recorded as sent, and the outcome is the same for every negotiated
server version (so no capability check can be observed). -/
theorem query_operations_not_implemented (st : ClientState) (c : Contract)
    (e : OffsetDateTime) (duration bar_size what_to_show period : String)
    (use_rth keep_up_to_date ignore_size : Bool)
    (start_date end_date : Option OffsetDateTime)
    (number_of_ticks use_rth_int : Int) :
    histogram_data st c use_rth period =
      (.error (.anyhowError "not implemented!"), st) ∧
    historical_data st c e duration bar_size what_to_show use_rth
        keep_up_to_date =
      (.error (.anyhowError "not implemented!"), st) ∧
    historical_schedule st c use_rth period =
      (.error (.anyhowError "not implemented!"), st) ∧
    historical_ticks st c start_date end_date number_of_ticks use_rth_int
        ignore_size =
      (.error (.anyhowError "not implemented!"), st) ∧
    historical_ticks_bid_ask st c start_date end_date number_of_ticks
        use_rth_int ignore_size =
      (.error (.anyhowError "not implemented!"), st) ∧
    historical_ticks_last st c start_date end_date number_of_ticks
        use_rth_int ignore_size =
      (.error (.anyhowError "not implemented!"), st) :=
  ⟨rfl, rfl, rfl, rfl, rfl, rfl⟩

/-- C9: `HistoricalTickIterator.next` returns `none` for every iterator
value, leaving the iterator unchanged — so, regardless of how the
iterator was constructed and of any number of prior calls, every call
yields `none`: a `HistoricalTickIterator` is always the empty
sequence. -/
theorem historical_tick_iterator_always_none (it : HistoricalTickIterator) :
    it.next = (none, it) :=
  rfl

end HistoricalMarketData
